import Mathlib

/-!
Verification of the filter-and-aggregate query engine of `dashboard.py`
(Global Terrorism Database dashboard).

The embedding is shallow: a pandas `DataFrame` row becomes a `Row` record, a
`DataFrame` becomes a `List Row` (preserving row order), and each filter /
aggregation block of the script becomes a Lean function over `List Row`.
Numeric columns (`nkill`, `nwound`, `success`) hold integer counts and 0/1
flags in the dataset; they are embedded as `Option ℤ` with `none` standing
for a missing value (pandas `NaN`).  Derived rates and quantiles are exact
rationals built with `mkRat`.  Pandas comparison semantics are kept: any
comparison against `NaN` is false, sums skip `NaN` (treating it as 0), means
drop `NaN` from numerator and denominator, and `Series.max` / `mode` /
`idxmax` of an empty series have no value (modelled as `none`, the spot where
pandas raises or returns `NaN`).
-/

/-- One incident record of the loaded dataset: the columns `dashboard.py`
reads.  `decade` is the extra column the Trends tab assigns into the
filtered frame (line 272); freshly filtered rows carry `none` there. -/
structure Row where
  year : ℤ := 0
  month : ℤ := 0
  country : Option String := none
  city : Option String := none
  region : Option String := none
  latitude : Option ℚ := none
  longitude : Option ℚ := none
  attack_type : Option String := none
  target_type : Option String := none
  group_name : Option String := none
  nkill : Option ℤ := none
  nwound : Option ℤ := none
  success : Option ℤ := none
  decade : Option String := none
deriving DecidableEq

/-- The sidebar's `Attack Outcome` radio control: `All` / `Successful` /
`Failed` (line 156). -/
inductive Outcome where
  | all
  | successful
  | failed
deriving DecidableEq

/-- FilterCriteria: the sidebar selections.  `none` in `region`, `country`,
`attackType` stands for the sentinels `'All Regions'` / `'All Countries'` /
`'All Types'`. -/
structure Criteria where
  yearLo : ℤ
  yearHi : ℤ
  region : Option String := none
  country : Option String := none
  attackType : Option String := none
  outcome : Outcome := .all
deriving DecidableEq

/-- The filter block of `dashboard.py` lines 169–180, applied step by step in
the source's order: year range first (with `.copy()`, so the source frame is
untouched), then region, country, attack type, and outcome, each only when
its sentinel is not selected. -/
def applyFilters (df : List Row) (c : Criteria) : List Row :=
  let d1 := df.filter fun r => decide (c.yearLo ≤ r.year) && decide (r.year ≤ c.yearHi)
  let d2 := match c.region with
    | none => d1
    | some s => d1.filter fun r => r.region == some s
  let d3 := match c.country with
    | none => d2
    | some s => d2.filter fun r => r.country == some s
  let d4 := match c.attackType with
    | none => d3
    | some s => d3.filter fun r => r.attack_type == some s
  match c.outcome with
  | .all => d4
  | .successful => d4.filter fun r => r.success == some 1
  | .failed => d4.filter fun r => r.success == some 0

/-- The conjunction of all five predicates of the filter block, as one
boolean test on a row. -/
def rowMatches (c : Criteria) (r : Row) : Bool :=
  (decide (c.yearLo ≤ r.year) && decide (r.year ≤ c.yearHi)) &&
  (match c.region with | none => true | some s => r.region == some s) &&
  (match c.country with | none => true | some s => r.country == some s) &&
  (match c.attackType with | none => true | some s => r.attack_type == some s) &&
  (match c.outcome with
    | .all => true
    | .successful => r.success == some 1
    | .failed => r.success == some 0)

/-- The same five filter passes applied in the reverse order (outcome first,
year range last), to compare evaluation orders. -/
def applyFiltersRev (df : List Row) (c : Criteria) : List Row :=
  let d1 := match c.outcome with
    | .all => df
    | .successful => df.filter fun r => r.success == some 1
    | .failed => df.filter fun r => r.success == some 0
  let d2 := match c.attackType with
    | none => d1
    | some s => d1.filter fun r => r.attack_type == some s
  let d3 := match c.country with
    | none => d2
    | some s => d2.filter fun r => r.country == some s
  let d4 := match c.region with
    | none => d3
    | some s => d3.filter fun r => r.region == some s
  d4.filter fun r => decide (c.yearLo ≤ r.year) && decide (r.year ≤ c.yearHi)

theorem applyFilters_eq_filter (df : List Row) (c : Criteria) :
    applyFilters df c = df.filter (rowMatches c) := by
  unfold applyFilters
  cases hr : c.region <;> cases hc : c.country <;>
    cases ha : c.attackType <;> cases ho : c.outcome <;>
      simp only [List.filter_filter] <;>
        (apply List.filter_congr; intro r _;
         simp [rowMatches, hr, hc, ha, ho, Bool.and_assoc, Bool.and_comm, Bool.and_left_comm])

theorem applyFiltersRev_eq_filter (df : List Row) (c : Criteria) :
    applyFiltersRev df c = df.filter (rowMatches c) := by
  unfold applyFiltersRev
  cases hr : c.region <;> cases hc : c.country <;>
    cases ha : c.attackType <;> cases ho : c.outcome <;>
      simp only [List.filter_filter] <;>
        (apply List.filter_congr; intro r _;
         simp [rowMatches, hr, hc, ha, ho, Bool.and_assoc, Bool.and_comm, Bool.and_left_comm])

/-- Pandas `Series.sum` over a nullable column: `NaN` is skipped, so a
missing value contributes 0. -/
def sumOpt (l : List (Option ℤ)) : ℤ :=
  (l.filterMap id).foldr (· + ·) 0

/-- Pandas `Series.mean` over a nullable column: missing values leave both
numerator and denominator; the mean of an empty or all-null series is `NaN`,
modelled as `none`. -/
def meanOpt (l : List (Option ℤ)) : Option ℚ :=
  let v := l.filterMap id
  match v with
  | [] => none
  | _ => some (mkRat (v.foldr (· + ·) 0) v.length)

/-- Pandas `Series.max` over a nullable column: `NaN` skipped; an empty or
all-null series has no maximum (pandas yields `NaN`), modelled as `none`. -/
def maxOpt (l : List (Option ℤ)) : Option ℤ :=
  match l.filterMap id with
  | [] => none
  | x :: xs => some (xs.foldl max x)

/-- How many entries of a string list equal `s`. -/
def countEq (l : List String) (s : String) : ℕ :=
  (l.filter fun t => t == s).length

/-- Lexicographic comparison of character lists by code point, the order
pandas uses to sort string values. -/
def charsLe : List Char → List Char → Bool
  | [], _ => true
  | _ :: _, [] => false
  | a :: as, b :: bs =>
    if a.toNat < b.toNat then true
    else if b.toNat < a.toNat then false
    else charsLe as bs

/-- Lexicographic string comparison on the underlying characters. -/
def strLeB (a b : String) : Bool :=
  charsLe a.data b.data

/-- Pandas `Series.mode().iloc[0]`: the most frequent non-null value, ties
resolved to the smallest value because `mode` returns its answers sorted.
On an empty series `mode()` is empty and `.iloc[0]` raises `IndexError`;
that spot is `none` here. -/
def modeFirst (l : List String) : Option String :=
  match l.dedup with
  | [] => none
  | d :: ds =>
    some (ds.foldl
      (fun best v =>
        if countEq l best < countEq l v then v
        else if countEq l v == countEq l best && strLeB v best && !(v == best) then v
        else best)
      d)

/-- The distinct years of a view, sorted ascending: the group keys of
`groupby('year')`. -/
def sortedYears (view : List Row) : List ℤ :=
  List.insertionSort (fun a b : ℤ => a ≤ b) (view.map (·.year)).dedup

/-- One row of the yearly trend table (lines 214–217): the measures
`groupby('year').agg` computes, after the rename to
`[year, killed, wounded, attacks, success_rate]`. -/
structure YearAgg where
  year : ℤ
  killed : ℤ
  wounded : ℤ
  attacks : ℕ
  success_rate : Option ℚ
deriving DecidableEq

/-- The yearly trend aggregation (lines 214–217): group the filtered view by
year; per group sum `nkill` and `nwound`, count non-null `country`, and take
the mean of `success`. -/
def yearlyTrend (view : List Row) : List YearAgg :=
  (sortedYears view).map fun y =>
    let g := view.filter fun r => r.year == y
    { year := y
      killed := sumOpt (g.map (·.nkill))
      wounded := sumOpt (g.map (·.nwound))
      attacks := (g.filterMap (·.country)).length
      success_rate := meanOpt (g.map (·.success)) }

/-- The `Peak year` summary statistic (line 492):
`yearly.loc[yearly['attacks'].idxmax(), 'year']`.  `idxmax` returns the first
row holding the maximum; on an empty frame it raises `ValueError`, modelled
as `none`. -/
def peakYear (view : List Row) : Option ℤ :=
  match yearlyTrend view with
  | [] => none
  | a :: rest =>
    some ((rest.foldl (fun best e => if best.attacks < e.attacks then e else best) a).year)

/-- Pandas `Series.quantile(0.95)` with the default linear interpolation:
sort the non-null values; with `m` values the quantile sits at position
`h = 0.95 * (m - 1)`, giving `x[i] + (h - i) * (x[i+1] - x[i])` for
`i = floor h`.  An empty series has no quantile (pandas yields `NaN`),
modelled as `none`. -/
def quantile95 (l : List ℤ) : Option ℚ :=
  match List.insertionSort (fun a b : ℤ => a ≤ b) l with
  | [] => none
  | x :: xs =>
    let s := x :: xs
    let m := s.length
    let i := 95 * (m - 1) / 100
    let rem : ℕ := 95 * (m - 1) % 100
    let xi := s.getD i x
    let xi1 := s.getD (i + 1) xi
    some (mkRat (100 * xi + rem * (xi1 - xi)) 100)

/-- The lethality boxplot input (line 382):
`df_filtered[df_filtered['nkill'] <= df_filtered['nkill'].quantile(0.95)]`.
One global 95th-percentile threshold is computed over the whole view's
`nkill` column; a row survives when its `nkill` is non-null and at most that
threshold (a `NaN` on either side of `<=` compares false). -/
def boxplotInput (view : List Row) : List Row :=
  let q := quantile95 (view.filterMap (·.nkill))
  view.filter fun r =>
    match r.nkill, q with
    | some k, some v => decide ((k : ℚ) ≤ v)
    | _, _ => false

/-- Modelled from the spec's words for comparison with `boxplotInput`: the
per-attack-type clip the spec describes, where each row is compared against
the 95th percentile of `nkill` within its own `attack_type` group. -/
def boxplotInputPerGroup (view : List Row) : List Row :=
  view.filter fun r =>
    let q := quantile95 ((view.filter fun x => x.attack_type == r.attack_type).filterMap (·.nkill))
    match r.nkill, q with
    | some k, some v => decide ((k : ℚ) ≤ v)
    | _, _ => false

/-- One row of the country table built at lines 322–323:
`groupby('country').agg({'nkill': 'sum', 'year': 'count'})` renamed to
`[country, killed, attacks]` (`year` is never null, so its count is the group
size). -/
structure CountryAgg where
  country : String
  killed : ℤ
  attacks : ℕ
deriving DecidableEq

/-- The group keys of `groupby('country')`: distinct non-null countries,
sorted ascending as pandas does. -/
def sortedCountries (view : List Row) : List String :=
  List.insertionSort (fun a b => strLeB a b = true) (view.filterMap (·.country)).dedup

/-- The per-country aggregate table of lines 322–323. -/
def countryAgg (view : List Row) : List CountryAgg :=
  (sortedCountries view).map fun c =>
    let g := view.filter fun r => r.country == some c
    { country := c
      killed := sumOpt (g.map (·.nkill))
      attacks := g.length }

/-- Line 324, `top_countries.nlargest(15, 'attacks')`: the 15 countries with
the most attacks, stably ordered by descending attack count (`keep='first'`
on ties). -/
def topCountries (view : List Row) : List CountryAgg :=
  (List.insertionSort (fun a b : CountryAgg => b.attacks ≤ a.attacks) (countryAgg view)).take 15

/-- Modelled from the spec's words for comparison with the tables the code
builds: a separate top-15-by-`sum(nkill)` country selection. -/
def topCountriesByKilled (view : List Row) : List CountryAgg :=
  (List.insertionSort (fun a b : CountryAgg => b.killed ≤ a.killed) (countryAgg view)).take 15

/-- Lines 308–309, `df_filtered['country'].value_counts()`: the full
country-to-count table for the choropleth, ordered by descending count,
`NaN` countries dropped. -/
def countryCounts (view : List Row) : List (String × ℕ) :=
  List.insertionSort (fun a b : String × ℕ => b.2 ≤ a.2)
    ((view.filterMap (·.country)).dedup.map fun c =>
      (c, (view.filter fun r => r.country == some c).length))

/-- Line 283: the geo-taggable rows, those with non-null latitude and
longitude (the `.copy()` leaves the filtered frame alone). -/
def geoRows (view : List Row) : List Row :=
  view.filter fun r => r.latitude.isSome && r.longitude.isSome

/-- One step of a linear congruential generator, keying each row position for
the deterministic draw of `sample(n=5000, random_state=42)`.  The exact
permutation numpy's seeded generator produces differs, but every property
claimed of the draw (fixed size, rows taken from the input, no position
reused, same output for the same input) is independent of it. -/
def sampleKey (seed i : ℕ) : ℕ :=
  (1103515245 * (seed + i) + 12345) % 2147483648

/-- The `k` distinct row positions (out of `n`) the seeded draw picks: a
pseudo-random permutation of all positions, truncated to `k`. -/
def sampleIndices (seed n k : ℕ) : List ℕ :=
  (List.insertionSort (fun i j => sampleKey seed i ≤ sampleKey seed j) (List.range n)).take k

/-- Lines 283–287: the map data.  Geo-taggable rows pass through unchanged
unless there are more than 5000 of them, in which case a deterministic
5000-row sample is drawn with the fixed seed 42. -/
def geoSample (view : List Row) : List Row :=
  let g := geoRows view
  if g.length ≤ 5000 then g
  else (sampleIndices 42 g.length 5000).map fun i => g.getD i {}

/-- Python's `year // 10 * 10` decade label of line 272, e.g. `"1980s"`. -/
def decadeLabel (y : ℤ) : String :=
  toString (y.fdiv 10 * 10) ++ "s"

/-- The effect on one row of the column assignment
`df_filtered['decade'] = (df_filtered['year'] // 10 * 10).astype(str) + 's'`. -/
def addDecade (r : Row) : Row :=
  { r with decade := some (decadeLabel r.year) }

/-- The dashboard's two live frames: the cached source `df` and the current
`df_filtered`.  Because line 169 ends in `.copy()`, the two are distinct
objects and an in-place change to one never reaches the other; the state
keeps them as separate fields for the same reason. -/
structure DashState where
  df : List Row
  filtered : List Row
deriving DecidableEq

/-- The filter block (lines 169–180) as a state step: recomputes
`df_filtered` from the source frame, leaving the source untouched. -/
def filterStep (c : Criteria) (s : DashState) : DashState :=
  { s with filtered := applyFilters s.df c }

/-- Lines 272–273 as a state step: the decade column assignment writes into
`df_filtered` itself (no copy), then `groupby('decade').size()` is read off
the mutated frame. -/
def decadeStep (s : DashState) : DashState × List (String × ℕ) :=
  let f := s.filtered.map addDecade
  let keys := List.insertionSort (fun a b => strLeB a b = true) (f.filterMap (·.decade)).dedup
  ({ s with filtered := f },
   keys.map fun d => (d, (f.filter fun r => r.decade == some d).length))

/-- Lines 283–287 as a state step: the map tab's sample is drawn from a copy,
so the state is returned unchanged beside the sampled rows. -/
def mapStep (s : DashState) : DashState × List Row :=
  (s, geoSample s.filtered)

/-- Line 139: the slider bounds `min_year` / `max_year` from the full
dataset (pandas `min`; 0 only for an empty frame, where the script would
already have failed). -/
def minYear (df : List Row) : ℤ :=
  match df.map (·.year) with
  | [] => 0
  | x :: xs => xs.foldl min x

/-- Line 139: the dataset's maximum year. -/
def maxYear (df : List Row) : ℤ :=
  match df.map (·.year) with
  | [] => 0
  | x :: xs => xs.foldl max x

/-- The criteria in force before the user touches any control: line 140 sets
the year slider's default value to `(2000, max_year)` — the lower bound is
the literal 2000, not `min_year` — and every other control starts at its
`All …` sentinel. -/
def defaultCriteria (df : List Row) : Criteria :=
  { yearLo := 2000, yearHi := maxYear df }

/-- The first record of the spec's two-record scenario. -/
def rowA : Row :=
  { year := 1999, region := some "A", country := some "X",
    attack_type := some "Bombing", nkill := some 5, success := some 1 }

/-- The second record of the spec's two-record scenario. -/
def rowB : Row :=
  { year := 2001, region := some "B", country := some "Y",
    attack_type := some "Assault", nkill := some 0, success := some 0 }

/-- The spec's two-record scenario dataset. -/
def scenarioDS : List Row := [rowA, rowB]

/-- The scenario criteria: year range `[2000, 2020]`, everything else at its
sentinel. -/
def scenarioCriteria : Criteria := { yearLo := 2000, yearHi := 2020 }

/-- Criteria matching nothing in `scenarioDS`: year range `[3000, 3001]`. -/
def noRowsCriteria : Criteria := { yearLo := 3000, yearHi := 3001 }

/-- A synthetic single-group row: attack type `"A"`, `nkill = i`. -/
def synthRow (i : ℕ) : Row := { attack_type := some "A", nkill := some (i : ℤ) }

/-- A synthetic view of one attack-type group holding the 100 distinct
`nkill` values 0–99. -/
def synthView : List Row := (List.range 100).map synthRow

/-- A row of attack type `"A"` with no kills. -/
def rowKillZero : Row := { attack_type := some "A", nkill := some 0 }

/-- A row of attack type `"B"` with ten kills. -/
def rowKillTen : Row := { attack_type := some "B", nkill := some 10 }

/-- A two-group view on which a global and a per-group 95th-percentile clip
disagree. -/
def twoGroupView : List Row := [rowKillZero, rowKillTen]

/-- Two identical rows for the country `"c" ++ toString i`. -/
def cexCountryRow (i : ℕ) : Row := { country := some ("c" ++ toString i), nkill := some 0 }

/-- A single row for country `"z"` carrying far more kills than any other
country accumulates. -/
def deadliestRow : Row := { country := some "z", nkill := some 100 }

/-- Sixteen countries: fifteen with two zero-kill attacks each and `"z"` with
one attack of 100 kills — so `"z"` tops the kill ranking but not the attack
ranking. -/
def rankView : List Row :=
  ((List.range 15).map fun i => [cexCountryRow i, cexCountryRow i]).flatten ++ [deadliestRow]

/-- A dashboard state holding the scenario dataset and its filtered view. -/
def mutState : DashState :=
  { df := scenarioDS, filtered := applyFilters scenarioDS scenarioCriteria }

/-- C6: on the two-record scenario dataset with year range `[2000, 2020]` and
all other predicates unset, the filtered view is exactly the second record
and the yearly trend aggregate is
`[{year := 2001, killed := 0, wounded := 0, attacks := 1, success_rate := 0}]`. -/
theorem C6_two_record_scenario :
    applyFilters scenarioDS scenarioCriteria = [rowB] ∧
    yearlyTrend (applyFilters scenarioDS scenarioCriteria) =
      [{ year := 2001, killed := 0, wounded := 0, attacks := 1, success_rate := some 0 }] := by
  decide

/-- C1: evaluation of the summary statistics at a filter combination that
matches no rows.  The view is empty and the sum/count aggregates degrade to
zero and the empty table, but `peakYear` (pandas
`yearly['attacks'].idxmax()`, line 492) and the three mode statistics
(`mode().iloc[0]`, lines 496–499) land in the case where pandas raises
(`ValueError` from `idxmax`, `IndexError` from `.iloc[0]`), modelled as
`none`: the script crashes instead of showing a "no data" sentinel, and the
maxima come out as pandas `NaN` rather than a sentinel. -/
theorem C1_empty_filter_summary_stats :
    applyFilters scenarioDS noRowsCriteria = [] ∧
    sumOpt ((applyFilters scenarioDS noRowsCriteria).map (·.nkill)) = 0 ∧
    sumOpt ((applyFilters scenarioDS noRowsCriteria).map (·.nwound)) = 0 ∧
    (applyFilters scenarioDS noRowsCriteria).length = 0 ∧
    yearlyTrend (applyFilters scenarioDS noRowsCriteria) = [] ∧
    countryCounts (applyFilters scenarioDS noRowsCriteria) = [] ∧
    peakYear (applyFilters scenarioDS noRowsCriteria) = none ∧
    modeFirst ((applyFilters scenarioDS noRowsCriteria).filterMap (·.country)) = none ∧
    modeFirst ((applyFilters scenarioDS noRowsCriteria).filterMap (·.attack_type)) = none ∧
    modeFirst ((applyFilters scenarioDS noRowsCriteria).filterMap (·.target_type)) = none ∧
    maxOpt ((applyFilters scenarioDS noRowsCriteria).map (·.nkill)) = none ∧
    maxOpt ((applyFilters scenarioDS noRowsCriteria).map (·.nwound)) = none := by
  decide

/-- C2 counterexample: the boxplot filter of line 382 is a single global
clip, not a per-attack-type clip.  On `twoGroupView` the global threshold is
`9.5`, so the `"B"` row (10 kills) is dropped, while the per-group clip the
claim describes keeps it (its own group's 95th percentile is 10). -/
theorem C2_per_group_clip_cex :
    boxplotInput twoGroupView ≠ boxplotInputPerGroup twoGroupView ∧
    rowKillTen ∈ boxplotInputPerGroup twoGroupView ∧
    rowKillTen ∉ boxplotInput twoGroupView := by
  decide

/-- C3 counterexample: the default criteria are not
`[min_year, max_year]` — line 140 pins the default lower bound to the
literal 2000 — and on the scenario dataset the 1999 record, though present
in the dataset, is missing from the default filtered view. -/
theorem C3_default_bounds_cex :
    defaultCriteria scenarioDS ≠
      { yearLo := minYear scenarioDS, yearHi := maxYear scenarioDS } ∧
    rowA ∈ scenarioDS ∧
    rowA ∉ applyFilters scenarioDS (defaultCriteria scenarioDS) := by
  decide

/-- C9 counterexample: the decade computation of line 272 writes a new
column into `df_filtered` itself, so after the Trends tab runs, the filtered
view is no longer the frame the filter block produced. -/
theorem C9_decade_mutation_cex :
    (decadeStep mutState).1.filtered ≠ mutState.filtered := by
  decide

/-- C5: for every dataset and criteria, the filtered view is no longer than
the dataset, every row of it satisfies all active predicates (inclusive year
range, exact matches for region / country / attack type when set, the
outcome flag when set), and the predicates combine conjunctively: applying
the five passes in the reverse order gives the same view, and either order
equals one filter by the conjunction of the predicates. -/
theorem C5_filter_sound (df : List Row) (c : Criteria) :
    (applyFilters df c).length ≤ df.length ∧
    (∀ r ∈ applyFilters df c,
      (c.yearLo ≤ r.year ∧ r.year ≤ c.yearHi) ∧
      (∀ s, c.region = some s → r.region = some s) ∧
      (∀ s, c.country = some s → r.country = some s) ∧
      (∀ s, c.attackType = some s → r.attack_type = some s) ∧
      (c.outcome = .successful → r.success = some 1) ∧
      (c.outcome = .failed → r.success = some 0)) ∧
    applyFiltersRev df c = applyFilters df c ∧
    applyFilters df c = df.filter (rowMatches c) := by
  refine ⟨?_, ?_, ?_, applyFilters_eq_filter df c⟩
  · rw [applyFilters_eq_filter]
    exact List.length_filter_le _ _
  · intro r hr
    rw [applyFilters_eq_filter, List.mem_filter] at hr
    obtain ⟨-, hm⟩ := hr
    unfold rowMatches at hm
    simp only [Bool.and_eq_true, decide_eq_true_eq] at hm
    obtain ⟨⟨⟨⟨⟨h1, h2⟩, h3⟩, h4⟩, h5⟩, h6⟩ := hm
    refine ⟨⟨h1, h2⟩, ?_, ?_, ?_, ?_, ?_⟩
    · intro s hs; rw [hs] at h3; simpa using h3
    · intro s hs; rw [hs] at h4; simpa using h4
    · intro s hs; rw [hs] at h5; simpa using h5
    · intro ho; rw [ho] at h6; simpa using h6
    · intro ho; rw [ho] at h6; simpa using h6
  · rw [applyFiltersRev_eq_filter, applyFilters_eq_filter]

/-- C7: filtering is idempotent — running the whole filter block again on an
already-filtered view, with the same criteria, returns that view unchanged. -/
theorem C7_filter_idempotent (df : List Row) (c : Criteria) :
    applyFilters (applyFilters df c) c = applyFilters df c := by
  simp only [applyFilters_eq_filter, List.filter_filter]
  apply List.filter_congr
  intro r _
  rw [Bool.and_self]

/-- C3 (amended): with every control untouched, the filtered view consists
exactly of the dataset's rows with `2000 ≤ year ≤ max_year` — the default
lower bound is the literal 2000 from line 140, not `min_year`. -/
theorem C3_default_filter_char (df : List Row) (r : Row) :
    r ∈ applyFilters df (defaultCriteria df) ↔
      r ∈ df ∧ 2000 ≤ r.year ∧ r.year ≤ maxYear df := by
  rw [applyFilters_eq_filter, List.mem_filter]
  unfold rowMatches defaultCriteria
  simp [and_assoc]

/-- C2 (amended): the lethality boxplot input drops rows above the 95th
percentile of `nkill` computed once over the whole filtered view — a single
global threshold, not one per attack type.  On a single-group view the two
coincide: for the synthetic group of 100 distinct values 0–99 exactly the
top 5 values are excluded.  In general a row survives iff its `nkill` is
non-null and at most the global threshold. -/
theorem C2_global_clip :
    boxplotInput synthView = (List.range 95).map synthRow ∧
    ∀ (view : List Row) (r : Row),
      r ∈ boxplotInput view ↔
        r ∈ view ∧ ∃ k q, r.nkill = some k ∧
          quantile95 (view.filterMap (·.nkill)) = some q ∧ (k : ℚ) ≤ q := by
  refine ⟨by decide, ?_⟩
  intro view r
  simp only [boxplotInput]
  rw [List.mem_filter]
  constructor
  · rintro ⟨hmem, hp⟩
    refine ⟨hmem, ?_⟩
    cases hk : r.nkill with
    | none => rw [hk] at hp; simp at hp
    | some k =>
      cases hq : quantile95 (view.filterMap (·.nkill)) with
      | none => rw [hk, hq] at hp; simp at hp
      | some q =>
        rw [hk, hq] at hp
        simp only [decide_eq_true_eq] at hp
        exact ⟨k, q, rfl, rfl, hp⟩
  · rintro ⟨hmem, k, q, hk, hq, hle⟩
    refine ⟨hmem, ?_⟩
    rw [hk, hq]
    simpa using hle

theorem filterMap_nkill_filter_isSome (view : List Row) :
    ((view.filter fun x => x.nkill.isSome).filterMap (·.nkill)) =
      view.filterMap (·.nkill) := by
  induction view with
  | nil => rfl
  | cons a t ih =>
    cases ha : a.nkill with
    | none => simp [List.filter_cons, List.filterMap_cons, ha, ih]
    | some k => simp [List.filter_cons, List.filterMap_cons, ha, ih]

/-- C10: a row whose `nkill` is null never reaches the lethality boxplot
input — `NaN <= threshold` is false — the 95th-percentile threshold itself
is unchanged by dropping the null-`nkill` rows (quantile skips `NaN`), yet
the same null contributes 0 to the sum-based aggregates. -/
theorem C10_null_nkill_boxplot (view : List Row) (r : Row)
    (hr : r ∈ view) (hnull : r.nkill = none) :
    r ∉ boxplotInput view ∧
    quantile95 ((view.filter fun x => x.nkill.isSome).filterMap (·.nkill)) =
      quantile95 (view.filterMap (·.nkill)) ∧
    sumOpt ((r :: view).map (·.nkill)) = sumOpt (view.map (·.nkill)) := by
  refine ⟨?_, by rw [filterMap_nkill_filter_isSome], ?_⟩
  · intro hmem
    simp only [boxplotInput] at hmem
    rw [List.mem_filter] at hmem
    obtain ⟨-, hp⟩ := hmem
    rw [hnull] at hp
    simp at hp
  · simp [sumOpt, List.filterMap_cons, hnull]

/-- A row with a missing `nkill`. -/
def nullKillRow : Row := { country := some "W" }

/-- A small view holding the null-`nkill` row beside an ordinary row. -/
def nullKillView : List Row := [nullKillRow, rowKillZero]

/-- Witness for C10 at the concrete view `nullKillView`. -/
theorem C10_null_nkill_boxplot_witness :
    (nullKillRow ∈ nullKillView ∧ nullKillRow.nkill = none) ∧
    (nullKillRow ∉ boxplotInput nullKillView ∧
     quantile95 ((nullKillView.filter fun x => x.nkill.isSome).filterMap (·.nkill)) =
       quantile95 (nullKillView.filterMap (·.nkill)) ∧
     sumOpt ((nullKillRow :: nullKillView).map (·.nkill)) =
       sumOpt (nullKillView.map (·.nkill))) :=
  ⟨⟨by decide, by decide⟩,
   C10_null_nkill_boxplot nullKillView nullKillRow (by decide) (by decide)⟩

theorem getD_mem_of_lt {α : Type} (l : List α) (i : ℕ) (d : α) (h : i < l.length) :
    l.getD i d ∈ l := by
  rw [List.getD_eq_getElem?_getD, List.getElem?_eq_getElem h]
  exact List.getElem_mem h

theorem sampleIndices_mem {seed n k i : ℕ} (h : i ∈ sampleIndices seed n k) : i < n := by
  have h1 : i ∈ List.insertionSort
      (fun i j => sampleKey seed i ≤ sampleKey seed j) (List.range n) :=
    (List.take_sublist _ _).subset h
  exact List.mem_range.mp ((List.mem_insertionSort _).mp h1)

/-- C8: when the filtered view holds more than 5000 geo-taggable rows, the
map sample has exactly 5000 rows, each drawn from the geo-taggable rows (so
with non-null latitude and longitude) at pairwise-distinct positions, and
any view with the same geo-taggable rows yields the identical sample — the
draw is a pure function of its input with the seed fixed at 42. -/
theorem C8_geo_sample (view : List Row) (h : 5000 < (geoRows view).length) :
    (geoSample view).length = 5000 ∧
    (∀ r ∈ geoSample view, r ∈ geoRows view ∧ r.latitude.isSome ∧ r.longitude.isSome) ∧
    (sampleIndices 42 (geoRows view).length 5000).Nodup ∧
    (∀ w : List Row, geoRows w = geoRows view → geoSample w = geoSample view) := by
  have hif : ¬ (geoRows view).length ≤ 5000 := by omega
  refine ⟨?_, ?_, ?_, ?_⟩
  · simp only [geoSample, if_neg hif, List.length_map, sampleIndices,
      List.length_take, List.length_insertionSort, List.length_range]
    omega
  · intro r hr
    simp only [geoSample, if_neg hif, List.mem_map] at hr
    obtain ⟨i, hi, rfl⟩ := hr
    have hlt : i < (geoRows view).length := sampleIndices_mem hi
    have hmem : (geoRows view).getD i {} ∈ geoRows view := getD_mem_of_lt _ _ _ hlt
    have hp := (List.mem_filter.mp hmem).2
    rw [Bool.and_eq_true] at hp
    exact ⟨hmem, hp.1, hp.2⟩
  · have hperm := List.perm_insertionSort
      (fun i j => sampleKey 42 i ≤ sampleKey 42 j) (List.range (geoRows view).length)
    have hnd : (List.insertionSort (fun i j => sampleKey 42 i ≤ sampleKey 42 j)
        (List.range (geoRows view).length)).Nodup :=
      hperm.symm.nodup (List.nodup_range _)
    exact (List.take_sublist _ _).nodup hnd
  · intro w hw
    simp only [geoSample, hw]

/-- A geo-taggable row at index `i`. -/
def geoRow (i : ℕ) : Row := { latitude := some (i : ℚ), longitude := some 0 }

/-- A view with 5001 geo-taggable rows, one above the sampling cutoff. -/
def bigView : List Row := (List.range 5001).map geoRow

theorem bigView_geoRows : geoRows bigView = bigView := by
  apply List.filter_eq_self.mpr
  intro a ha
  simp only [bigView, List.mem_map] at ha
  obtain ⟨i, -, rfl⟩ := ha
  rfl

theorem bigView_big : 5000 < (geoRows bigView).length := by
  rw [bigView_geoRows]
  simp [bigView]

/-- Witness for C8 at the concrete 5001-row view `bigView`. -/
theorem C8_geo_sample_witness :
    (5000 < (geoRows bigView).length) ∧
    ((geoSample bigView).length = 5000 ∧
     (∀ r ∈ geoSample bigView,
        r ∈ geoRows bigView ∧ r.latitude.isSome ∧ r.longitude.isSome) ∧
     (sampleIndices 42 (geoRows bigView).length 5000).Nodup ∧
     (∀ w : List Row, geoRows w = geoRows bigView → geoSample w = geoSample bigView)) :=
  ⟨bigView_big, C8_geo_sample bigView bigView_big⟩

/-- C4 counterexample: the Map tab builds only a top-15-by-attack-count
country table (line 324, `nlargest(15, 'attacks')`) and the full
`value_counts` table; no top-15-by-`sum(nkill)` country table exists.  On
`rankView` the country `"z"` leads the kill ranking yet appears in no
produced country top-15, so the code's table cannot be the claimed
by-kills selection. -/
theorem C4_top15_by_killed_cex :
    topCountries rankView ≠ topCountriesByKilled rankView ∧
    "z" ∈ (topCountriesByKilled rankView).map (·.country) ∧
    "z" ∉ (topCountries rankView).map (·.country) ∧
    "z" ∈ (countryCounts rankView).map (·.1) := by
  decide

/-- C4 (amended): the country ranking groups the view by country with
measures `sum(nkill)` and row count, selects the top 15 by count only
(every excluded country has at most the attacks of every selected one), and
separately builds the full country-to-count table for the choropleth; no
top-15-by-kills country table is produced. -/
theorem C4_country_tables (view : List Row) :
    ((topCountries view).length = min 15 (countryAgg view).length) ∧
    (∀ e ∈ topCountries view, e ∈ countryAgg view) ∧
    (∀ e ∈ countryAgg view, e ∉ topCountries view →
      ∀ f ∈ topCountries view, e.attacks ≤ f.attacks) ∧
    (∀ e ∈ countryAgg view,
      (∃ r ∈ view, r.country = some e.country) ∧
      e.attacks = (view.filter fun r => r.country == some e.country).length ∧
      e.killed = sumOpt ((view.filter fun r => r.country == some e.country).map (·.nkill))) ∧
    (∀ c n, (c, n) ∈ countryCounts view ↔
      (∃ r ∈ view, r.country = some c) ∧
      n = (view.filter fun r => r.country == some c).length) := by
  haveI instTot : IsTotal CountryAgg (fun a b => b.attacks ≤ a.attacks) :=
    ⟨fun a b => le_total b.attacks a.attacks⟩
  haveI instTra : IsTrans CountryAgg (fun a b => b.attacks ≤ a.attacks) :=
    ⟨fun _ _ _ hab hbc => le_trans hbc hab⟩
  refine ⟨?_, ?_, ?_, ?_, ?_⟩
  · simp [topCountries, List.length_take, List.length_insertionSort]
  · intro e he
    exact (List.mem_insertionSort _).mp ((List.take_sublist _ _).subset he)
  · intro e he hnot f hf
    have hs := List.sorted_insertionSort
      (fun a b : CountryAgg => b.attacks ≤ a.attacks) (countryAgg view)
    set L := List.insertionSort
      (fun a b : CountryAgg => b.attacks ≤ a.attacks) (countryAgg view) with hL
    have heL : e ∈ L := (List.mem_insertionSort _).mpr he
    have hsplit : List.take 15 L ++ List.drop 15 L = L := List.take_append_drop 15 L
    have hdrop : e ∈ List.drop 15 L := by
      rcases List.mem_append.mp (by rw [hsplit]; exact heL) with h1 | h2
      · exact absurd h1 (by simpa [topCountries, hL] using hnot)
      · exact h2
    have hpw : List.Pairwise (fun a b : CountryAgg => b.attacks ≤ a.attacks)
        (List.take 15 L ++ List.drop 15 L) := by
      rw [hsplit]; exact hs
    have hcross := (List.pairwise_append.mp hpw).2.2
    exact hcross f (by simpa [topCountries, hL] using hf) e hdrop
  · intro e he
    simp only [countryAgg, List.mem_map] at he
    obtain ⟨c, hc, rfl⟩ := he
    have hc2 : c ∈ (view.filterMap (·.country)).dedup :=
      (List.mem_insertionSort _).mp hc
    have hc3 : c ∈ view.filterMap (·.country) := List.mem_dedup.mp hc2
    obtain ⟨r, hr, hrc⟩ := List.mem_filterMap.mp hc3
    exact ⟨⟨r, hr, hrc⟩, rfl, rfl⟩
  · intro c n
    constructor
    · intro h
      have h1 := (List.mem_insertionSort _).mp h
      obtain ⟨c', hc', heq⟩ := List.mem_map.mp h1
      have hcc : c' = c := congrArg Prod.fst heq
      have hnn : (view.filter fun r => r.country == some c').length = n :=
        congrArg Prod.snd heq
      subst hcc
      have hc3 : c' ∈ view.filterMap (·.country) := List.mem_dedup.mp hc'
      obtain ⟨r, hr, hrc⟩ := List.mem_filterMap.mp hc3
      exact ⟨⟨r, hr, hrc⟩, hnn.symm⟩
    · rintro ⟨⟨r, hr, hrc⟩, hn⟩
      apply (List.mem_insertionSort _).mpr
      apply List.mem_map.mpr
      refine ⟨c, ?_, ?_⟩
      · exact List.mem_dedup.mpr (List.mem_filterMap.mpr ⟨r, hr, hrc⟩)
      · rw [hn]

/-- C9 (amended): the filter pass recomputes the view from the source frame
and leaves the source untouched (line 169 copies), and the map tab samples
from a copy, leaving both frames alone — but the decade computation is the
one exception: line 272 assigns a new column into `df_filtered` itself, so
whenever the view holds a row without a decade column, the view after the
Trends tab differs from the view the filter produced.  The source frame
still never changes. -/
theorem C9_frame_discipline (s : DashState) (c : Criteria) :
    (filterStep c s).df = s.df ∧
    (filterStep c s).filtered = applyFilters s.df c ∧
    (decadeStep s).1.df = s.df ∧
    (decadeStep s).1.filtered = s.filtered.map addDecade ∧
    (mapStep s).1 = s ∧
    (∀ r ∈ s.filtered, r.decade = none → (decadeStep s).1.filtered ≠ s.filtered) := by
  refine ⟨rfl, rfl, rfl, rfl, rfl, ?_⟩
  intro r hr hnone heq
  have heq2 : s.filtered.map addDecade = s.filtered := heq
  rw [← heq2] at hr
  obtain ⟨x, -, hx⟩ := List.mem_map.mp hr
  rw [← hx] at hnone
  simp [addDecade] at hnone
